import Mathlib

/-!
Verification of the smart traffic signal control system: a four-lane
intersection simulator with variable green time, per-second discharge and
waiting-time accrual, random arrivals between cycles, and aggregate
statistics.  The C functions are embedded as pure Lean functions over an
`Intersection` record; machine integers (`int`, `long`) are modelled as `Int`,
and the `double` division in the statistics summary is modelled as exact
division in `ℚ`.
-/

namespace Traffic

/-- `#define LANES 4`. -/
abbrev LANES : Nat := 4

/-- `#define MAX_GREEN 40` — maximum green seconds. -/
def MAX_GREEN : Int := 40

/-- `#define BASE_GREEN 5` — minimum green seconds. -/
def BASE_GREEN : Int := 5

/-- `#define VEHICLE_PASS_PER_SEC 1` — vehicles that can pass per second on green. -/
def VEHICLE_PASS_PER_SEC : Int := 1

/-- struct `Lane`: vehicles currently waiting, accumulated waiting seconds,
total vehicles passed through. -/
structure Lane where
  vehicles : Int
  total_wait_secs : Int
  vehicles_served : Int
deriving DecidableEq

/-- struct `Intersection`: name, the four lanes (the dynamically allocated
array of `LANES` lanes is modelled as a total function on `Fin LANES`), and
the count of completed cycles. -/
structure Intersection where
  name : String
  lanes : Fin LANES → Lane
  cycles : Int

/-- `calculate_green_time`: base + 2 seconds per waiting vehicle, capped above
at `MAX_GREEN`.  (The source caps only from above; the lower clamp to
`BASE_GREEN` happens at the call site in `run_one_cycle`.) -/
def calculate_green_time (vehicles_waiting : Int) : Int :=
  let t := BASE_GREEN + 2 * vehicles_waiting
  if t > MAX_GREEN then MAX_GREEN else t

/-- `create_intersection`: zeroed lanes and zero cycle counter. -/
def create_intersection (name : String) : Intersection :=
  { name := name, lanes := fun _ => ⟨0, 0, 0⟩, cycles := 0 }

/-- The green lane's update during one simulated second of `run_one_cycle`:
if it has waiting vehicles, one passes (decrement, clamp at zero, and count it
as served). -/
def pass_one (l : Lane) : Lane :=
  if l.vehicles > 0 then
    { l with
      vehicles :=
        if l.vehicles - VEHICLE_PASS_PER_SEC < 0 then 0
        else l.vehicles - VEHICLE_PASS_PER_SEC,
      vehicles_served := l.vehicles_served + VEHICLE_PASS_PER_SEC }
  else l

/-- A non-green lane's update during one simulated second: each waiting
vehicle accumulates one second of wait, i.e. the current queue depth is added
to `total_wait_secs` (only when the lane is non-empty). -/
def accrue_wait (l : Lane) : Lane :=
  if l.vehicles > 0 then
    { l with total_wait_secs := l.total_wait_secs + l.vehicles }
  else l

/-- One iteration of the `sec` loop of `run_one_cycle` while lane `i` is
green: lane `i` discharges via `pass_one`, every other lane accrues wait via
`accrue_wait`.  In the source this is a sequential loop over the lane array,
but each iteration reads and writes only lane `j`, so it is rendered
pointwise. -/
def green_second (i : Fin LANES) (lanes : Fin LANES → Lane) : Fin LANES → Lane :=
  fun j => if j = i then pass_one (lanes j) else accrue_wait (lanes j)

/-- Lane `i`'s whole green phase inside `run_one_cycle`: compute the green
time from the current queue, re-clamp it from below at `BASE_GREEN`
(defensively, as the source does), and run that many one-second ticks. -/
def green_phase (i : Fin LANES) (lanes : Fin LANES → Lane) : Fin LANES → Lane :=
  let waiting := (lanes i).vehicles
  let green := calculate_green_time waiting
  let green2 := if green < BASE_GREEN then BASE_GREEN else green
  (green_second i)^[green2.toNat] lanes

/-- `run_one_cycle`: each lane gets one green phase in ascending index order;
afterwards the cycle counter is incremented. -/
def run_one_cycle (it : Intersection) : Intersection :=
  { it with
    lanes := (List.finRange LANES).foldl (fun ls i => green_phase i ls) it.lanes,
    cycles := it.cycles + 1 }

/-- `random_arrival_between_cycles`: each lane receives `rand() % 4` new
vehicles.  The successive outputs of the process-wide pseudo-random source
(non-negative `int`s from `rand()`) are passed in explicitly as `rands`, one
per lane. -/
def random_arrival_between_cycles (rands : List Nat) (it : Intersection) : Intersection :=
  { it with
    lanes := fun i =>
      let l := it.lanes i
      { l with vehicles := l.vehicles + ((rands.getD i.val 0 % 4 : Nat) : Int) } }

/-- `input_vehicle_counts`: one integer read per lane; a failed parse
(`none`, i.e. `scanf` not returning 1) exits the process, modelled by `none`;
otherwise each entered value is clamped below at zero and stored. -/
def input_vehicle_counts (inputs : Fin LANES → Option Int) (it : Intersection) :
    Option Intersection :=
  if h : ∀ i, (inputs i).isSome then
    some { it with
      lanes := fun i =>
        let v := (inputs i).get (h i)
        { it.lanes i with vehicles := if v < 0 then 0 else v } }
  else none

/-- Total vehicles served, as accumulated by the loop in `save_statistics`. -/
def total_served (it : Intersection) : Int :=
  (List.finRange LANES).foldl (fun acc i => acc + (it.lanes i).vehicles_served) 0

/-- Total accumulated wait seconds, as accumulated by the loop in
`save_statistics`. -/
def total_wait (it : Intersection) : Int :=
  (List.finRange LANES).foldl (fun acc i => acc + (it.lanes i).total_wait_secs) 0

/-- The average wait per vehicle computed by `save_statistics`; the `double`
division is modelled as exact division in `ℚ`. -/
def avg_wait_per_vehicle (it : Intersection) : ℚ :=
  if total_served it > 0 then (total_wait it : ℚ) / (total_served it : ℚ) else 0

/-- The driver `main`: create the intersection named `Main_1`, read the four
lane counts, validate the cycle count (exit status 1 before any simulation
when it is non-parseable or non-positive), then run the requested number of
cycles with arrival injection after each.  `rands` gives the four random
draws consumed between cycle `c` and the next.  Returns the exit status and
the final intersection state. -/
def main_sim (laneInputs : Fin LANES → Option Int) (cyclesInput : Option Int)
    (rands : Nat → List Nat) : Int × Intersection :=
  let it := create_intersection "Main_1"
  match input_vehicle_counts laneInputs it with
  | none => (1, it)
  | some it1 =>
    match cyclesInput with
    | none => (1, it1)
    | some n =>
      if n ≤ 0 then (1, it1)
      else
        (0, (List.range n.toNat).foldl
              (fun s c => random_arrival_between_cycles (rands c) (run_one_cycle s)) it1)

/-- A driver-level operation on the intersection state: one signal cycle or
one arrival injection (with the given random draws). -/
inductive Op where
  | cycle : Op
  | inject : List Nat → Op

/-- Apply one operation. -/
def apply_op : Op → Intersection → Intersection
  | Op.cycle, it => run_one_cycle it
  | Op.inject rands, it => random_arrival_between_cycles rands it

/-- Apply a sequence of operations in order. -/
def apply_ops (ops : List Op) (it : Intersection) : Intersection :=
  ops.foldl (fun s op => apply_op op s) it

/-- Modelled from the spec: the green-time formula as the spec words it,
`BASE_GREEN + 2 * waiting` clamped to the interval `[BASE_GREEN, MAX_GREEN]`,
for comparison with `calculate_green_time` from the code. -/
def green_time_spec (w : Int) : Int :=
  max BASE_GREEN (min (BASE_GREEN + 2 * w) MAX_GREEN)

/-- The concrete initial lanes of the worked scenario: waiting counts
`[2, 0, 5, 1]`, all accumulators zero. -/
def trace_lanes : Fin LANES → Lane :=
  ![⟨2, 0, 0⟩, ⟨0, 0, 0⟩, ⟨5, 0, 0⟩, ⟨1, 0, 0⟩]

/-- The concrete initial intersection of the worked scenario. -/
def trace_start : Intersection :=
  { name := "Main_1", lanes := trace_lanes, cycles := 0 }

-- ### Helper lemmas

/-- For a non-negative queue the green time is at least `BASE_GREEN`. -/
lemma green_time_lb (w : Int) (h : 0 ≤ w) : BASE_GREEN ≤ calculate_green_time w := by
  unfold calculate_green_time BASE_GREEN MAX_GREEN
  simp only
  split_ifs <;> omega

/-- For a queue of at most 40 the green time covers the whole queue. -/
lemma green_time_ge_self (w : Int) (h0 : 0 ≤ w) (h40 : w ≤ 40) :
    w ≤ calculate_green_time w := by
  unfold calculate_green_time BASE_GREEN MAX_GREEN
  simp only
  split_ifs <;> omega

/-- During its own green phase, lane `i` evolves by `pass_one` alone. -/
lemma green_second_iterate_self (i : Fin LANES) (lanes : Fin LANES → Lane)
    (k : Nat) : ((green_second i)^[k] lanes) i = pass_one^[k] (lanes i) := by
  induction k with
  | zero => rfl
  | succ k ih =>
    rw [Function.iterate_succ_apply', Function.iterate_succ_apply']
    simp [green_second, ih]

/-- Closed form for `k` applications of `pass_one` to a lane with a
non-negative queue: the queue drains one per step down to zero, the served
counter grows accordingly, and the wait accumulator is untouched. -/
lemma pass_one_iterate (l : Lane) (h : 0 ≤ l.vehicles) (k : Nat) :
    (pass_one^[k] l).vehicles = max (l.vehicles - k) 0 ∧
    (pass_one^[k] l).vehicles_served = l.vehicles_served + min l.vehicles k ∧
    (pass_one^[k] l).total_wait_secs = l.total_wait_secs := by
  induction k with
  | zero => simp; omega
  | succ k ih =>
    obtain ⟨h1, h2, h3⟩ := ih
    rw [Function.iterate_succ_apply']
    generalize hm : pass_one^[k] l = m at h1 h2 h3 ⊢
    unfold pass_one VEHICLE_PASS_PER_SEC
    split_ifs <;> refine ⟨?_, ?_, ?_⟩ <;> dsimp <;> omega

/-- All four queues are non-negative. -/
def nonneg_lanes (lanes : Fin LANES → Lane) : Prop :=
  ∀ i, 0 ≤ (lanes i).vehicles

/-- Pointwise: both accumulators of `a` are at most those of `b`. -/
def lanes_le (a b : Fin LANES → Lane) : Prop :=
  ∀ i, (a i).total_wait_secs ≤ (b i).total_wait_secs ∧
       (a i).vehicles_served ≤ (b i).vehicles_served

lemma lanes_le_refl (a : Fin LANES → Lane) : lanes_le a a :=
  fun _ => ⟨le_refl _, le_refl _⟩

lemma lanes_le_trans {a b c : Fin LANES → Lane}
    (h1 : lanes_le a b) (h2 : lanes_le b c) : lanes_le a c :=
  fun i => ⟨le_trans (h1 i).1 (h2 i).1, le_trans (h1 i).2 (h2 i).2⟩

lemma pass_one_nonneg (l : Lane) (h : 0 ≤ l.vehicles) : 0 ≤ (pass_one l).vehicles := by
  unfold pass_one VEHICLE_PASS_PER_SEC
  split_ifs <;> (try dsimp) <;> omega

lemma pass_one_le (l : Lane) :
    l.total_wait_secs ≤ (pass_one l).total_wait_secs ∧
    l.vehicles_served ≤ (pass_one l).vehicles_served := by
  unfold pass_one VEHICLE_PASS_PER_SEC
  split_ifs <;> (try dsimp) <;> omega

lemma accrue_wait_vehicles (l : Lane) : (accrue_wait l).vehicles = l.vehicles := by
  unfold accrue_wait
  split_ifs <;> rfl

lemma accrue_wait_le (l : Lane) :
    l.total_wait_secs ≤ (accrue_wait l).total_wait_secs ∧
    l.vehicles_served ≤ (accrue_wait l).vehicles_served := by
  unfold accrue_wait
  split_ifs <;> (try dsimp) <;> omega

lemma green_second_nonneg (i : Fin LANES) (lanes : Fin LANES → Lane)
    (h : nonneg_lanes lanes) : nonneg_lanes (green_second i lanes) := by
  intro j
  unfold green_second
  split_ifs
  · exact pass_one_nonneg _ (h j)
  · rw [accrue_wait_vehicles]
    exact h j

lemma green_second_le (i : Fin LANES) (lanes : Fin LANES → Lane) :
    lanes_le lanes (green_second i lanes) := by
  intro j
  unfold green_second
  split_ifs
  · exact pass_one_le _
  · exact accrue_wait_le _

lemma iterate_pres {α : Type} (f : α → α) (P : α → Prop)
    (hf : ∀ a, P a → P (f a)) : ∀ (k : Nat) (a : α), P a → P (f^[k] a) := by
  intro k
  induction k with
  | zero => intro a ha; simpa using ha
  | succ k ih =>
    intro a ha
    rw [Function.iterate_succ_apply]
    exact ih _ (hf _ ha)

lemma iterate_rel {α : Type} (f : α → α) (r : α → α → Prop)
    (hrefl : ∀ a, r a a) (htrans : ∀ a b c, r a b → r b c → r a c)
    (hf : ∀ a, r a (f a)) : ∀ (k : Nat) (a : α), r a (f^[k] a) := by
  intro k
  induction k with
  | zero => intro a; simpa using hrefl a
  | succ k ih =>
    intro a
    rw [Function.iterate_succ_apply]
    exact htrans _ _ _ (hf a) (ih (f a))

lemma green_phase_nonneg (i : Fin LANES) (lanes : Fin LANES → Lane)
    (h : nonneg_lanes lanes) : nonneg_lanes (green_phase i lanes) :=
  iterate_pres (green_second i) nonneg_lanes (fun a ha => green_second_nonneg i a ha)
    _ lanes h

lemma green_phase_le (i : Fin LANES) (lanes : Fin LANES → Lane) :
    lanes_le lanes (green_phase i lanes) :=
  iterate_rel (green_second i) lanes_le lanes_le_refl
    (fun _ _ _ => lanes_le_trans) (green_second_le i) _ lanes

lemma foldl_pres {α β : Type} (f : α → β → α) (P : α → Prop)
    (hf : ∀ a b, P a → P (f a b)) :
    ∀ (l : List β) (a : α), P a → P (l.foldl f a) := by
  intro l
  induction l with
  | nil => intro a ha; simpa using ha
  | cons x xs ih =>
    intro a ha
    rw [List.foldl_cons]
    exact ih _ (hf _ _ ha)

lemma foldl_rel {α β : Type} (f : α → β → α) (r : α → α → Prop)
    (hrefl : ∀ a, r a a) (htrans : ∀ a b c, r a b → r b c → r a c)
    (hf : ∀ a b, r a (f a b)) :
    ∀ (l : List β) (a : α), r a (l.foldl f a) := by
  intro l
  induction l with
  | nil => intro a; simpa using hrefl a
  | cons x xs ih =>
    intro a
    rw [List.foldl_cons]
    exact htrans _ _ _ (hf a x) (ih (f a x))

lemma run_one_cycle_nonneg (it : Intersection) (h : nonneg_lanes it.lanes) :
    nonneg_lanes ((run_one_cycle it).lanes) :=
  foldl_pres _ nonneg_lanes (fun a b ha => green_phase_nonneg b a ha) _ _ h

lemma run_one_cycle_le (it : Intersection) :
    lanes_le it.lanes ((run_one_cycle it).lanes) :=
  foldl_rel _ lanes_le lanes_le_refl (fun _ _ _ => lanes_le_trans)
    (fun a b => green_phase_le b a) _ _

lemma inject_nonneg (rands : List Nat) (it : Intersection)
    (h : nonneg_lanes it.lanes) :
    nonneg_lanes ((random_arrival_between_cycles rands it).lanes) := by
  intro i
  have := h i
  dsimp [random_arrival_between_cycles]
  omega

lemma inject_le (rands : List Nat) (it : Intersection) :
    lanes_le it.lanes ((random_arrival_between_cycles rands it).lanes) := by
  intro i
  exact ⟨le_refl _, le_refl _⟩

lemma apply_op_nonneg (op : Op) (it : Intersection) (h : nonneg_lanes it.lanes) :
    nonneg_lanes ((apply_op op it).lanes) := by
  cases op with
  | cycle => exact run_one_cycle_nonneg it h
  | inject rands => exact inject_nonneg rands it h

lemma apply_op_le (op : Op) (it : Intersection) :
    lanes_le it.lanes ((apply_op op it).lanes) := by
  cases op with
  | cycle => exact run_one_cycle_le it
  | inject rands => exact inject_le rands it

lemma apply_ops_pres (ops : List Op) :
    ∀ it : Intersection, nonneg_lanes it.lanes →
      nonneg_lanes ((apply_ops ops it).lanes) ∧
      lanes_le it.lanes ((apply_ops ops it).lanes) := by
  induction ops with
  | nil => intro it h; exact ⟨h, lanes_le_refl _⟩
  | cons op ops ih =>
    intro it h
    obtain ⟨h3, h4⟩ := ih (apply_op op it) (apply_op_nonneg op it h)
    exact ⟨h3, lanes_le_trans (apply_op_le op it) h4⟩

/-- `input_vehicle_counts` leaves the cycle counter alone. -/
lemma input_vehicle_counts_cycles (inputs : Fin LANES → Option Int)
    (it it2 : Intersection) (h : input_vehicle_counts inputs it = some it2) :
    it2.cycles = it.cycles := by
  unfold input_vehicle_counts at h
  split at h
  · injection h with h'
    subst h'
    rfl
  · cases h

-- ### Claim theorems

/-- Claim C3, counterexample: at input `-1` the code returns `3`, outside
`[5, 40]` — the source caps the green time only from above, so the range part
of the claim fails for negative inputs. -/
theorem green_time_range_counterexample :
    ¬ (BASE_GREEN ≤ calculate_green_time (-1) ∧
       calculate_green_time (-1) ≤ MAX_GREEN) := by
  decide

/-- Claim C3 (amended): `calculate_green_time` is monotonically non-decreasing
on all of `Int`, and for every non-negative input its result lies in
`[BASE_GREEN, MAX_GREEN] = [5, 40]`. -/
theorem green_time_monotone_range :
    (∀ w w' : Int, w ≤ w' → calculate_green_time w ≤ calculate_green_time w') ∧
    (∀ w : Int, 0 ≤ w →
      BASE_GREEN ≤ calculate_green_time w ∧ calculate_green_time w ≤ MAX_GREEN) := by
  unfold calculate_green_time BASE_GREEN MAX_GREEN
  constructor
  · intro w w' h
    simp only
    split_ifs <;> omega
  · intro w h
    simp only
    split_ifs <;> omega

/-- Witness for C3: the amended theorem applied at the inputs 3 and 7. -/
theorem green_time_monotone_range_witness :
    (calculate_green_time 3 ≤ calculate_green_time 7) ∧
    (BASE_GREEN ≤ calculate_green_time 3 ∧ calculate_green_time 3 ≤ MAX_GREEN) :=
  ⟨green_time_monotone_range.1 3 7 (by decide),
   green_time_monotone_range.2 3 (by decide)⟩

/-- Claim C4: for every non-negative `w`, `calculate_green_time w` equals
`BASE_GREEN + 2 * w` clamped to `[BASE_GREEN, MAX_GREEN]`, and in particular
it maps 0 to 5, 10 to 25, and 20 to 40. -/
theorem green_time_formula (w : Int) (h : 0 ≤ w) :
    calculate_green_time w = green_time_spec w ∧
    calculate_green_time 0 = 5 ∧
    calculate_green_time 10 = 25 ∧
    calculate_green_time 20 = 40 := by
  refine ⟨?_, by decide, by decide, by decide⟩
  unfold calculate_green_time green_time_spec BASE_GREEN MAX_GREEN
  simp only
  split_ifs <;> omega

/-- Witness for C4: the theorem applied at the input 7. -/
theorem green_time_formula_witness :
    (0 : Int) ≤ 7 ∧
    (calculate_green_time 7 = green_time_spec 7 ∧
     calculate_green_time 0 = 5 ∧
     calculate_green_time 10 = 25 ∧
     calculate_green_time 20 = 40) :=
  ⟨by decide, green_time_formula 7 (by decide)⟩

set_option maxRecDepth 4000 in
/-- Claim C1: from waiting counts `[2,0,5,1]` with zeroed accumulators and
cycle counter, one `run_one_cycle` proceeds deterministically: lane 0's green
phase lasts 9 ticks, lane 0 is empty with 2 served after 2 of them, and after
the full phase lane 2 has accrued 45 wait-seconds, lane 3 has accrued 9, and
lane 1 none; after all four phases the final state has all lanes empty,
served `[2,0,5,1]`, wait `[0,0,70,29]`, and cycle counter 1. -/
theorem one_cycle_concrete_trace :
    calculate_green_time 2 = 9 ∧
    ((green_second 0)^[2] trace_lanes) 0 = ⟨0, 0, 2⟩ ∧
    (green_phase 0 trace_lanes) 0 = ⟨0, 0, 2⟩ ∧
    (green_phase 0 trace_lanes) 1 = ⟨0, 0, 0⟩ ∧
    (green_phase 0 trace_lanes) 2 = ⟨5, 45, 0⟩ ∧
    (green_phase 0 trace_lanes) 3 = ⟨1, 9, 0⟩ ∧
    (run_one_cycle trace_start).lanes 0 = ⟨0, 0, 2⟩ ∧
    (run_one_cycle trace_start).lanes 1 = ⟨0, 0, 0⟩ ∧
    (run_one_cycle trace_start).lanes 2 = ⟨0, 70, 5⟩ ∧
    (run_one_cycle trace_start).lanes 3 = ⟨0, 29, 1⟩ ∧
    (run_one_cycle trace_start).cycles = 1 := by
  decide

/-- Claim C9: a lane `i` with non-negative queue `v` at the start of its own
green phase of `g = calculate_green_time v` ticks ends the phase with
`max (v - g) 0` vehicles, exactly `min v g` more vehicles served, and its own
wait accumulator unchanged; in particular, a lane with at most 40 waiting
vehicles empties completely during its own phase. -/
theorem green_phase_lane_effect (i : Fin LANES) (lanes : Fin LANES → Lane)
    (h : 0 ≤ (lanes i).vehicles) :
    ((green_phase i lanes) i).vehicles =
      max ((lanes i).vehicles - calculate_green_time (lanes i).vehicles) 0 ∧
    ((green_phase i lanes) i).vehicles_served =
      (lanes i).vehicles_served +
        min (lanes i).vehicles (calculate_green_time (lanes i).vehicles) ∧
    ((green_phase i lanes) i).total_wait_secs = (lanes i).total_wait_secs ∧
    ((lanes i).vehicles ≤ 40 → ((green_phase i lanes) i).vehicles = 0) := by
  have hg := green_time_lb (lanes i).vehicles h
  have hg0 : 0 ≤ calculate_green_time (lanes i).vehicles := by
    unfold BASE_GREEN at hg; omega
  have hge : green_phase i lanes =
      (green_second i)^[(calculate_green_time (lanes i).vehicles).toNat] lanes := by
    show (green_second i)^[(if calculate_green_time (lanes i).vehicles < BASE_GREEN
        then BASE_GREEN else calculate_green_time (lanes i).vehicles).toNat] lanes = _
    rw [if_neg (not_lt.mpr hg)]
  have hcast : (((calculate_green_time (lanes i).vehicles).toNat : Nat) : Int) =
      calculate_green_time (lanes i).vehicles := Int.toNat_of_nonneg hg0
  obtain ⟨h1, h2, h3⟩ :=
    pass_one_iterate (lanes i) h (calculate_green_time (lanes i).vehicles).toNat
  rw [hge, green_second_iterate_self, h1, h2, h3, hcast]
  refine ⟨rfl, rfl, rfl, fun h40 => ?_⟩
  have := green_time_ge_self (lanes i).vehicles h h40
  omega

/-- Witness for C9: the theorem applied at lane 0 of the worked scenario. -/
theorem green_phase_lane_effect_witness :
    0 ≤ (trace_lanes 0).vehicles ∧
    (((green_phase 0 trace_lanes) 0).vehicles =
       max ((trace_lanes 0).vehicles -
         calculate_green_time (trace_lanes 0).vehicles) 0 ∧
     ((green_phase 0 trace_lanes) 0).vehicles_served =
       (trace_lanes 0).vehicles_served +
         min (trace_lanes 0).vehicles (calculate_green_time (trace_lanes 0).vehicles) ∧
     ((green_phase 0 trace_lanes) 0).total_wait_secs =
       (trace_lanes 0).total_wait_secs ∧
     ((trace_lanes 0).vehicles ≤ 40 → ((green_phase 0 trace_lanes) 0).vehicles = 0)) :=
  ⟨by decide, green_phase_lane_effect 0 trace_lanes (by decide)⟩

/-- Claim C7: for every state and every outcome of the pseudo-random source,
`random_arrival_between_cycles` adds to each lane's queue an integer from
`{0,1,2,3}` (one independent draw per lane) and changes nothing else: the
wait and served accumulators, the cycle counter, and the name all stay as
they were. -/
theorem inject_arrivals_effect (rands : List Nat) (it : Intersection) :
    (random_arrival_between_cycles rands it).name = it.name ∧
    (random_arrival_between_cycles rands it).cycles = it.cycles ∧
    ∀ i : Fin LANES, ∃ a : Nat, a ≤ 3 ∧
      (random_arrival_between_cycles rands it).lanes i =
        { it.lanes i with vehicles := (it.lanes i).vehicles + (a : Int) } := by
  refine ⟨rfl, rfl, fun i => ⟨rands.getD i.val 0 % 4, by omega, rfl⟩⟩

/-- Claim C8: `run_one_cycle` produces exactly the state whose lanes are the
result of the four green phases, one per lane in ascending order, and whose
cycle counter is the old one plus one — the increment happens once, after all
four phases. -/
theorem run_one_cycle_structure (it : Intersection) :
    run_one_cycle it =
      { name := it.name,
        lanes := green_phase 3 (green_phase 2 (green_phase 1 (green_phase 0 it.lanes))),
        cycles := it.cycles + 1 } := rfl

/-- Claim C2: from a state with all lane counters non-negative, any sequence
of `run_one_cycle` and `random_arrival_between_cycles` operations keeps every
queue non-negative, and no lane's `vehicles_served` or `total_wait_secs` ever
decreases from its value before the sequence. -/
theorem cycle_inject_invariants (ops : List Op) (it : Intersection)
    (h : ∀ i, 0 ≤ (it.lanes i).vehicles ∧ 0 ≤ (it.lanes i).total_wait_secs ∧
              0 ≤ (it.lanes i).vehicles_served) :
    (∀ i, 0 ≤ ((apply_ops ops it).lanes i).vehicles) ∧
    (∀ i, (it.lanes i).vehicles_served ≤ ((apply_ops ops it).lanes i).vehicles_served ∧
          (it.lanes i).total_wait_secs ≤ ((apply_ops ops it).lanes i).total_wait_secs) := by
  obtain ⟨h1, h2⟩ := apply_ops_pres ops it (fun i => (h i).1)
  exact ⟨h1, fun i => ⟨(h2 i).2, (h2 i).1⟩⟩

/-- A concrete operation sequence for the C2 witness. -/
def sample_ops : List Op := [Op.cycle, Op.inject [1, 2, 3, 0], Op.cycle]

/-- Witness for C2: the theorem applied to the worked scenario's start state
and a concrete three-operation sequence. -/
theorem cycle_inject_invariants_witness :
    (∀ i, 0 ≤ (trace_start.lanes i).vehicles ∧
          0 ≤ (trace_start.lanes i).total_wait_secs ∧
          0 ≤ (trace_start.lanes i).vehicles_served) ∧
    ((∀ i, 0 ≤ ((apply_ops sample_ops trace_start).lanes i).vehicles) ∧
     (∀ i, (trace_start.lanes i).vehicles_served ≤
             ((apply_ops sample_ops trace_start).lanes i).vehicles_served ∧
           (trace_start.lanes i).total_wait_secs ≤
             ((apply_ops sample_ops trace_start).lanes i).total_wait_secs)) :=
  ⟨by decide, cycle_inject_invariants sample_ops trace_start (by decide)⟩

/-- Claim C5: the statistics summary adds up `vehicles_served` and
`total_wait_secs` over the four lanes, and the average wait per vehicle is
the quotient of the two totals when any vehicle was served (here within any
tolerance, in particular `1e-9`, since the division is modelled exactly) and
exactly `0` when `total_served` is zero. -/
theorem summarize_correct (it : Intersection) :
    total_served it =
      (it.lanes 0).vehicles_served + (it.lanes 1).vehicles_served +
      (it.lanes 2).vehicles_served + (it.lanes 3).vehicles_served ∧
    total_wait it =
      (it.lanes 0).total_wait_secs + (it.lanes 1).total_wait_secs +
      (it.lanes 2).total_wait_secs + (it.lanes 3).total_wait_secs ∧
    (0 < total_served it →
      avg_wait_per_vehicle it = (total_wait it : ℚ) / (total_served it : ℚ) ∧
      |avg_wait_per_vehicle it - (total_wait it : ℚ) / (total_served it : ℚ)| ≤
        1 / 1000000000) ∧
    (total_served it = 0 → avg_wait_per_vehicle it = 0) := by
  refine ⟨?_, ?_, ?_, ?_⟩
  · have e : total_served it =
        0 + (it.lanes 0).vehicles_served + (it.lanes 1).vehicles_served +
        (it.lanes 2).vehicles_served + (it.lanes 3).vehicles_served := rfl
    rw [e]
    ring
  · have e : total_wait it =
        0 + (it.lanes 0).total_wait_secs + (it.lanes 1).total_wait_secs +
        (it.lanes 2).total_wait_secs + (it.lanes 3).total_wait_secs := rfl
    rw [e]
    ring
  · intro h
    unfold avg_wait_per_vehicle
    rw [if_pos h]
    refine ⟨rfl, ?_⟩
    simp only [sub_self, abs_zero]
    norm_num
  · intro h
    unfold avg_wait_per_vehicle
    rw [if_neg (by omega)]

/-- The final state of the worked scenario, used as a statistics witness. -/
def stats_state : Intersection :=
  { name := "Main_1",
    lanes := ![⟨0, 0, 2⟩, ⟨0, 0, 0⟩, ⟨0, 70, 5⟩, ⟨0, 29, 1⟩],
    cycles := 1 }

/-- Witness for C5: the theorem applied to a concrete state with 8 vehicles
served in total. -/
theorem summarize_correct_witness :
    0 < total_served stats_state ∧
    (total_served stats_state =
       (stats_state.lanes 0).vehicles_served + (stats_state.lanes 1).vehicles_served +
       (stats_state.lanes 2).vehicles_served + (stats_state.lanes 3).vehicles_served ∧
     total_wait stats_state =
       (stats_state.lanes 0).total_wait_secs + (stats_state.lanes 1).total_wait_secs +
       (stats_state.lanes 2).total_wait_secs + (stats_state.lanes 3).total_wait_secs ∧
     (0 < total_served stats_state →
       avg_wait_per_vehicle stats_state =
         (total_wait stats_state : ℚ) / (total_served stats_state : ℚ) ∧
       |avg_wait_per_vehicle stats_state -
         (total_wait stats_state : ℚ) / (total_served stats_state : ℚ)| ≤
         1 / 1000000000) ∧
     (total_served stats_state = 0 → avg_wait_per_vehicle stats_state = 0)) :=
  ⟨by decide, summarize_correct stats_state⟩

/-- Claim C6: when the cycle count fails to parse or is non-positive, the
driver returns the failure status 1 with the intersection exactly as it was
after reading the lane counts — no `run_one_cycle` has touched it, and its
cycle counter is still 0. -/
theorem invalid_cycle_count_aborts (laneInputs : Fin LANES → Option Int)
    (cyclesInput : Option Int) (rands : Nat → List Nat)
    (hin : (input_vehicle_counts laneInputs (create_intersection "Main_1")).isSome = true)
    (hbad : cyclesInput = none ∨ ∃ n : Int, cyclesInput = some n ∧ n ≤ 0) :
    main_sim laneInputs cyclesInput rands =
      (1, (input_vehicle_counts laneInputs (create_intersection "Main_1")).get hin) ∧
    ((input_vehicle_counts laneInputs (create_intersection "Main_1")).get hin).cycles
      = 0 := by
  obtain ⟨it1, h1⟩ := Option.isSome_iff_exists.mp hin
  have hget : (input_vehicle_counts laneInputs (create_intersection "Main_1")).get hin
      = it1 := by
    simp [h1]
  rw [hget]
  have hc : it1.cycles = 0 :=
    input_vehicle_counts_cycles laneInputs (create_intersection "Main_1") it1 h1
  refine ⟨?_, hc⟩
  simp only [main_sim, h1]
  rcases hbad with hb | ⟨n, hn, hle⟩
  · subst hb
    rfl
  · subst hn
    simp only [if_pos hle]

/-- Parseable lane inputs for the C6 witness. -/
def sample_inputs : Fin LANES → Option Int := fun _ => some 1

/-- The C6 witness's lane inputs all parse. -/
lemma sample_inputs_ok :
    (input_vehicle_counts sample_inputs (create_intersection "Main_1")).isSome = true := by
  decide

/-- Witness for C6: entering 0 as the cycle count aborts with status 1 and an
untouched intersection. -/
theorem invalid_cycle_count_aborts_witness :
    main_sim sample_inputs (some 0) (fun _ => []) =
      (1, (input_vehicle_counts sample_inputs (create_intersection "Main_1")).get
            sample_inputs_ok) ∧
    ((input_vehicle_counts sample_inputs (create_intersection "Main_1")).get
       sample_inputs_ok).cycles = 0 :=
  invalid_cycle_count_aborts sample_inputs (some 0) (fun _ => []) sample_inputs_ok
    (Or.inr ⟨0, rfl, by decide⟩)

/-- Claim C10: a negative entered lane count is silently clamped to 0 and the
program proceeds (the read succeeds); only a non-parseable lane entry makes
`input_vehicle_counts` abort the process. -/
theorem negative_lane_input_clamped (inputs : Fin LANES → Option Int)
    (it : Intersection) (i : Fin LANES) (v : Int)
    (hall : ∀ j, (inputs j).isSome = true) (hv : inputs i = some v) (hneg : v < 0) :
    (∃ it2, input_vehicle_counts inputs it = some it2 ∧
      (it2.lanes i).vehicles = 0) ∧
    (∀ inputs2 : Fin LANES → Option Int, (∃ j, inputs2 j = none) →
      input_vehicle_counts inputs2 it = none) := by
  constructor
  · refine ⟨{ it with lanes := fun j =>
        { it.lanes j with vehicles :=
            if (inputs j).get (hall j) < 0 then 0 else (inputs j).get (hall j) } },
      ?_, ?_⟩
    · unfold input_vehicle_counts
      rw [dif_pos hall]
    · dsimp only
      simp [hv, hneg]
  · rintro inputs2 ⟨j, hj⟩
    have hnot : ¬ ∀ k, (inputs2 k).isSome = true := by
      intro hf
      have := hf j
      rw [hj] at this
      simp at this
    unfold input_vehicle_counts
    rw [dif_neg hnot]

/-- Lane inputs for the C10 witness: lane 1's entry is negative. -/
def neg_inputs : Fin LANES → Option Int := ![some 3, some (-2), some 0, some 1]

/-- Witness for C10: the theorem applied at lane 1 with entered value -2. -/
theorem negative_lane_input_clamped_witness :
    (∀ j, (neg_inputs j).isSome = true) ∧ neg_inputs 1 = some (-2) ∧ (-2 : Int) < 0 ∧
    ((∃ it2, input_vehicle_counts neg_inputs trace_start = some it2 ∧
       (it2.lanes 1).vehicles = 0) ∧
     (∀ inputs2 : Fin LANES → Option Int, (∃ j, inputs2 j = none) →
       input_vehicle_counts inputs2 trace_start = none)) :=
  ⟨by decide, by decide, by decide,
   negative_lane_input_clamped neg_inputs trace_start 1 (-2) (by decide) (by decide)
     (by decide)⟩

end Traffic
